import Mathlib

/-!
Verification of the WarpX diagnostics-support core: the mesh-coarsening
sampling kernel (`ablastr::coarsen::sample::Interp`, from
`Source/ablastr/coarsen/sample.H`) and the per-particle filter functors
(`Source/Particles/Filter/FilterFunctors.H`), shallowly embedded in Lean.
Floating-point `amrex::Real` values are modelled as rationals; machine
integers as `Int` (C++ `%` on `int` is `Int.tmod`, truncated division is
`Int.tdiv`).
-/

namespace WarpXProof

/-! ## Mesh coarsening by sampling (Source/ablastr/coarsen/sample.H) -/

/-- Source field accessor: `amrex::Array4<amrex::Real const>`, a function of
three spatial indices plus a component index. -/
def Array4 : Type := ℤ → ℤ → ℤ → ℤ → ℚ

/-- Per-axis number of sampled fine points, as computed by the first loop of
`Interp`: `if (cr[l] == 1) np[l] = 1 + abs(sf[l]-sc[l]); else np[l] = 2 - sf[l];`. -/
def npAx (sf sc cr : ℤ) : ℤ :=
  if cr = 1 then 1 + |sf - sc| else 2 - sf

/-- Per-axis starting fine index, as computed by the second loop of `Interp`:
`if (cr[l] == 1) idx_min[l] = ic[l] - sc[l]*(1-sf[l]);
 else idx_min[l] = ic[l]*cr[l] + (cr[l]/2)*(1-sc[l]) - (1-sf[l]);`
(`static_cast<int>(cr[l]/2)` is C++ truncated integer division). -/
def idxMinAx (ic sf sc cr : ℤ) : ℤ :=
  if cr = 1 then ic - sc * (1 - sf) else ic * cr + (cr.tdiv 2) * (1 - sc) - (1 - sf)

/-- The triple interpolation loop of `Interp`: accumulates
`wx*wy*wz * arr_src(imin+iref, jmin+jref, kmin+kref, comp)` over
`0 <= iref < numx`, `0 <= jref < numy`, `0 <= kref < numz`. -/
def interpSum (arr_src : Array4) (numx numy numz : ℕ) (imin jmin kmin : ℤ)
    (wx wy wz : ℚ) (comp : ℤ) : ℚ :=
  Finset.sum (Finset.range numz) (fun kref =>
    Finset.sum (Finset.range numy) (fun jref =>
      Finset.sum (Finset.range numx) (fun iref =>
        wx * wy * wz * arr_src (imin + (iref : ℤ)) (jmin + (jref : ℤ))
          (kmin + (kref : ℤ)) comp)))

/-- `ablastr::coarsen::sample::Interp`: interpolates the data of the fine
source array at destination (coarse) cell `(i,j,k)`, component `comp`, for
source staggering `sf`, destination staggering `sc` and coarsening ratio
`cr` per axis.  Faithful to the source: per-axis point counts `np`, starting
indices `idx_min`, weights `1/np[l]` per axis, then the triple loop. -/
def Interp (arr_src : Array4) (sf sc cr : Fin 3 → ℤ)
    (i j k comp : ℤ) : ℚ :=
  let ic : Fin 3 → ℤ := ![i, j, k]
  let np : Fin 3 → ℤ := fun l => npAx (sf l) (sc l) (cr l)
  let idx_min : Fin 3 → ℤ := fun l => idxMinAx (ic l) (sf l) (sc l) (cr l)
  let numx : ℕ := (np 0).toNat
  let numy : ℕ := (np 1).toNat
  let numz : ℕ := (np 2).toNat
  let wx : ℚ := 1 / ((np 0 : ℤ) : ℚ)
  let wy : ℚ := 1 / ((np 1 : ℤ) : ℚ)
  let wz : ℚ := 1 / ((np 2 : ℤ) : ℚ)
  interpSum arr_src numx numy numz (idx_min 0) (idx_min 1) (idx_min 2) wx wy wz comp

/-- Modelled from the spec's words (for comparison with `Interp`): the
unweighted mean of the `np[0]*np[1]*np[2]` source values over the contiguous
index box starting at `idx_min`, with `np` and `idx_min` given by the
formulas quoted in the spec. -/
def specBoxMean (arr_src : Array4) (sf sc cr : Fin 3 → ℤ)
    (i j k comp : ℤ) : ℚ :=
  let ic : Fin 3 → ℤ := ![i, j, k]
  let np : Fin 3 → ℤ := fun l =>
    if cr l = 1 then 1 + |sf l - sc l| else 2 - sf l
  let idx_min : Fin 3 → ℤ := fun l =>
    if cr l = 1 then ic l - sc l * (1 - sf l)
    else ic l * cr l + ((cr l).tdiv 2) * (1 - sc l) - (1 - sf l)
  (Finset.sum (Finset.range (np 2).toNat) (fun kref =>
    Finset.sum (Finset.range (np 1).toNat) (fun jref =>
      Finset.sum (Finset.range (np 0).toNat) (fun iref =>
        arr_src (idx_min 0 + (iref : ℤ)) (idx_min 1 + (jref : ℤ))
          (idx_min 2 + (kref : ℤ)) comp))))
    / (((np 0 * np 1 * np 2 : ℤ) : ℚ))

theorem interpSum_eq_mul (arr_src : Array4) (numx numy numz : ℕ)
    (imin jmin kmin : ℤ) (wx wy wz : ℚ) (comp : ℤ) :
    interpSum arr_src numx numy numz imin jmin kmin wx wy wz comp =
      wx * wy * wz *
        Finset.sum (Finset.range numz) (fun kref =>
          Finset.sum (Finset.range numy) (fun jref =>
            Finset.sum (Finset.range numx) (fun iref =>
              arr_src (imin + (iref : ℤ)) (jmin + (jref : ℤ))
                (kmin + (kref : ℤ)) comp))) := by
  unfold interpSum
  simp only [Finset.mul_sum]

/-- C1: for every destination cell `(i,j,k)`, component, staggerings `sf`,
`sc` with entries in `{0,1}` and per-axis coarsening ratios `cr ≥ 1`,
`Interp` returns the unweighted mean of the `np[0]*np[1]*np[2]` source
values over the contiguous index box whose per-axis extent `np[l]` and
start `idx_min[l]` are given by the spec's formulas (`np[l] = 1+|sf-sc|`,
`idx_min[l] = ic-sc*(1-sf)` when `cr[l]=1`; `np[l] = 2-sf`,
`idx_min[l] = ic*cr + floor(cr/2)*(1-sc) - (1-sf)` when `cr[l]>1`), each
point carrying weight `1/(np[0]*np[1]*np[2])`. -/
theorem interp_is_unweighted_box_mean (arr_src : Array4) (sf sc cr : Fin 3 → ℤ)
    (i j k comp : ℤ)
    (hsf : ∀ l, sf l = 0 ∨ sf l = 1) (hsc : ∀ l, sc l = 0 ∨ sc l = 1)
    (hcr : ∀ l, 1 ≤ cr l) :
    Interp arr_src sf sc cr i j k comp =
      specBoxMean arr_src sf sc cr i j k comp := by
  simp only [Interp, specBoxMean, npAx, idxMinAx]
  rw [interpSum_eq_mul, div_eq_mul_inv]
  push_cast [mul_inv]
  ring

/-- Witness for C1 at a concrete configuration. -/
theorem interp_is_unweighted_box_mean_witness :
    (∀ l : Fin 3, (![0, 1, 0] : Fin 3 → ℤ) l = 0 ∨ (![0, 1, 0] : Fin 3 → ℤ) l = 1) ∧
    (∀ l : Fin 3, (![1, 0, 0] : Fin 3 → ℤ) l = 0 ∨ (![1, 0, 0] : Fin 3 → ℤ) l = 1) ∧
    (∀ l : Fin 3, 1 ≤ (![2, 3, 1] : Fin 3 → ℤ) l) ∧
    Interp (fun x _ _ _ => (x : ℚ)) ![0, 1, 0] ![1, 0, 0] ![2, 3, 1] 1 0 2 0 =
      specBoxMean (fun x _ _ _ => (x : ℚ)) ![0, 1, 0] ![1, 0, 0] ![2, 3, 1] 1 0 2 0 :=
  ⟨by decide, by decide, by decide,
    interp_is_unweighted_box_mean (fun x _ _ _ => (x : ℚ))
      ![0, 1, 0] ![1, 0, 0] ![2, 3, 1] 1 0 2 0
      (by decide) (by decide) (by decide)⟩

theorem npAx_pos (sf sc cr : ℤ) (hsf : sf = 0 ∨ sf = 1) (hcr : 1 ≤ cr) :
    1 ≤ npAx sf sc cr := by
  unfold npAx
  split
  · have := abs_nonneg (sf - sc)
    omega
  · rcases hsf with h | h <;> omega

/-- C3: for every staggering/ratio configuration the per-point weights of
`Interp` sum to exactly 1: a constant source field coarsens to the same
constant at every destination cell. -/
theorem interp_const_field (v : ℚ) (sf sc cr : Fin 3 → ℤ) (i j k comp : ℤ)
    (hsf : ∀ l, sf l = 0 ∨ sf l = 1) (hsc : ∀ l, sc l = 0 ∨ sc l = 1)
    (hcr : ∀ l, 1 ≤ cr l) :
    Interp (fun _ _ _ _ => v) sf sc cr i j k comp = v := by
  have h0 := npAx_pos (sf 0) (sc 0) (cr 0) (hsf 0) (hcr 0)
  have h1 := npAx_pos (sf 1) (sc 1) (cr 1) (hsf 1) (hcr 1)
  have h2 := npAx_pos (sf 2) (sc 2) (cr 2) (hsf 2) (hcr 2)
  simp only [Interp, interpSum, Finset.sum_const, Finset.card_range, nsmul_eq_mul]
  have e0 : (((npAx (sf 0) (sc 0) (cr 0)).toNat : ℚ)) =
      ((npAx (sf 0) (sc 0) (cr 0) : ℤ) : ℚ) := by
    exact_mod_cast congrArg (fun z : ℤ => (z : ℚ)) (Int.toNat_of_nonneg (by omega))
  have e1 : (((npAx (sf 1) (sc 1) (cr 1)).toNat : ℚ)) =
      ((npAx (sf 1) (sc 1) (cr 1) : ℤ) : ℚ) := by
    exact_mod_cast congrArg (fun z : ℤ => (z : ℚ)) (Int.toNat_of_nonneg (by omega))
  have e2 : (((npAx (sf 2) (sc 2) (cr 2)).toNat : ℚ)) =
      ((npAx (sf 2) (sc 2) (cr 2) : ℤ) : ℚ) := by
    exact_mod_cast congrArg (fun z : ℤ => (z : ℚ)) (Int.toNat_of_nonneg (by omega))
  rw [e0, e1, e2]
  have n0 : ((npAx (sf 0) (sc 0) (cr 0) : ℤ) : ℚ) ≠ 0 := by
    exact_mod_cast (by omega : npAx (sf 0) (sc 0) (cr 0) ≠ 0)
  have n1 : ((npAx (sf 1) (sc 1) (cr 1) : ℤ) : ℚ) ≠ 0 := by
    exact_mod_cast (by omega : npAx (sf 1) (sc 1) (cr 1) ≠ 0)
  have n2 : ((npAx (sf 2) (sc 2) (cr 2) : ℤ) : ℚ) ≠ 0 := by
    exact_mod_cast (by omega : npAx (sf 2) (sc 2) (cr 2) ≠ 0)
  field_simp
  ring

/-- Witness for C3: the spec's end-to-end example — a constant cell-centered
field of value 7, ratio (2,2,2), `sf = sc = (0,0,0)`, yields 7 at
destination cell (0,0,0) (and the theorem covers every other cell). -/
theorem interp_const_field_witness :
    (∀ l : Fin 3, (![0, 0, 0] : Fin 3 → ℤ) l = 0 ∨ (![0, 0, 0] : Fin 3 → ℤ) l = 1) ∧
    (∀ l : Fin 3, 1 ≤ (![2, 2, 2] : Fin 3 → ℤ) l) ∧
    Interp (fun _ _ _ _ => (7 : ℚ)) ![0, 0, 0] ![0, 0, 0] ![2, 2, 2] 0 0 0 0 = 7 :=
  ⟨by decide, by decide,
    interp_const_field 7 ![0, 0, 0] ![0, 0, 0] ![2, 2, 2] 0 0 0 0
      (by decide) (by decide) (by decide)⟩

/-- C2 counterexample: with coarsening ratio 3 on an axis and a
cell-centered source on that axis (`sf = 0`), `Interp` samples
`np = 2 - sf = 2` fine points on that axis, not `cr = 3` as the claim
states; concretely, for `cr = (3,1,1)`, `sf = sc = (0,0,0)`, destination
cell (0,0,0) and the source field `f(x,y,z) = x`, `Interp` returns the
2-point mean `(0+1)/2 = 1/2`, not the 3-point mean `(0+1+2)/3 = 1`. -/
theorem coarse_axis_not_cr_points :
    npAx 0 0 3 = 2 ∧ (2 : ℤ) ≠ 3 ∧
    Interp (fun x _ _ _ => (x : ℚ)) ![0, 0, 0] ![0, 0, 0] ![3, 1, 1] 0 0 0 0 = 1 / 2 ∧
    (1 / 2 : ℚ) ≠ (0 + 1 + 2) / 3 := by
  refine ⟨by decide, by decide, ?_, by norm_num⟩
  have h1 : npAx 0 0 3 = 2 := by decide
  have h2 : npAx 0 0 1 = 1 := by decide
  have h3 : idxMinAx 0 0 0 3 = 0 := by decide
  have h4 : idxMinAx 0 0 0 1 = 0 := by decide
  simp only [Interp, interpSum, Matrix.cons_val_zero, Matrix.cons_val_one,
    Matrix.head_cons, Matrix.cons_val_two, Matrix.tail_cons, h1, h2, h3, h4]
  norm_num [Finset.sum_range_succ, (by decide : (2 : ℤ).toNat = 2)]

/-- C2 (amended): for every axis `l` with `cr[l] > 1`, `Interp` averages 1
fine point along that axis when the source is face/edge-centered there
(`sf[l] = 1`) and 2 fine points when it is cell-centered (`sf[l] = 0`) —
2 coincides with `cr[l]` only when `cr[l] = 2`. -/
theorem coarse_axis_point_count (sf sc cr : ℤ) (hcr : 1 < cr)
    (hsf : sf = 0 ∨ sf = 1) :
    (sf = 1 → npAx sf sc cr = 1) ∧ (sf = 0 → npAx sf sc cr = 2) := by
  have hne : cr ≠ 1 := by omega
  unfold npAx
  rw [if_neg hne]
  exact ⟨fun h => by omega, fun h => by omega⟩

/-- Witness for the amended C2 at `sf = 0`, `cr = 3`. -/
theorem coarse_axis_point_count_witness :
    (1 : ℤ) < 3 ∧ ((0 : ℤ) = 0 ∨ (0 : ℤ) = 1) ∧
    (((0 : ℤ) = 1 → npAx 0 0 3 = 1) ∧ ((0 : ℤ) = 0 → npAx 0 0 3 = 2)) :=
  ⟨by decide, by decide, coarse_axis_point_count 0 0 3 (by decide) (by decide)⟩

/-! ## Particle filter functors (Source/Particles/Filter/FilterFunctors.H) -/

/-- Momentum unit convention expected by a filter expression: "WarpX units"
means the momentum is `gamma*v` (proper velocity), "SI" means `mass*gamma*v`. -/
inductive InputUnits
  | WarpX
  | SI
deriving DecidableEq

/-- Particle state used by the filter functors: `p.id()`, `p.pos(0..2)` and
the momentum components `p.rdata(PIdx::ux/uy/uz)`. -/
structure SuperParticle where
  id : ℤ
  pos : Fin 3 → ℚ
  ux : ℚ
  uy : ℚ
  uz : ℚ

/-- Random-stream state: a deterministic stream of uniform draws plus a draw
counter, modelling `amrex::RandomEngine`. -/
structure RandomEngine where
  stream : ℕ → ℚ
  counter : ℕ

/-- One call of `amrex::Random(engine)`: yields the next draw and advances
the draw counter. -/
def amrexRandom (engine : RandomEngine) : ℚ × RandomEngine :=
  (engine.stream engine.counter, ⟨engine.stream, engine.counter + 1⟩)

/-- Speed of light, `PhysConst::c` (m/s). -/
def PhysConst_c : ℚ := 299792458

/-- `RandomFilter` configuration. -/
structure RandomFilter where
  m_is_active : Bool
  m_fraction : ℚ

/-- `RandomFilter::operator()`:
`return (!m_is_active) || (amrex::Random(engine) < m_fraction);` with C++
short-circuit evaluation — the draw happens only when the filter is active.
The (possibly advanced) engine is returned to track stream consumption. -/
def RandomFilter.call (f : RandomFilter) (p : SuperParticle)
    (engine : RandomEngine) : Bool × RandomEngine :=
  if !f.m_is_active then (true, engine)
  else
    let r := amrexRandom engine
    (decide (r.1 < f.m_fraction), r.2)

/-- `UniformFilter` configuration. -/
structure UniformFilter where
  m_is_active : Bool
  m_stride : ℤ

/-- `UniformFilter::UniformFilter`: stores the arguments, with no validation. -/
def mkUniformFilter (a_is_active : Bool) (a_stride : ℤ) : UniformFilter :=
  { m_is_active := a_is_active, m_stride := a_stride }

/-- `UniformFilter::operator()`:
`return (!m_is_active) || (p.id() % m_stride == 0);` (C++ `%` on signed
integers is truncated modulus, `Int.tmod`). -/
def UniformFilter.call (f : UniformFilter) (p : SuperParticle)
    (engine : RandomEngine) : Bool × RandomEngine :=
  ((!f.m_is_active) || decide (p.id.tmod f.m_stride = 0), engine)

/-- `ParserFilter` state: activity flag, compiled 7-variable expression
`(t,x,y,z,ux,uy,uz)`, capture time `m_t`, species mass and unit mode. -/
structure ParserFilter where
  m_is_active : Bool
  m_function_partparser : ℚ → ℚ → ℚ → ℚ → ℚ → ℚ → ℚ → ℚ
  m_t : ℚ
  m_mass : ℚ
  m_units : InputUnits

/-- `ParserFilter::ParserFilter`: stores the flag, expression and mass; sets
`m_t = WarpX::GetInstance().gett_new(0)` (the global present time, passed
here explicitly) and `m_units = InputUnits::WarpX`.  The unit mode is not a
constructor parameter. -/
def mkParserFilter (a_is_active : Bool)
    (a_filter : ℚ → ℚ → ℚ → ℚ → ℚ → ℚ → ℚ → ℚ)
    (a_mass : ℚ) (gett_new : ℚ) : ParserFilter :=
  { m_is_active := a_is_active
    m_function_partparser := a_filter
    m_t := gett_new
    m_mass := a_mass
    m_units := InputUnits.WarpX }

/-- `ParserFilter::operator()`: when active, evaluates the expression at
`(m_t, x, y, z, ux/c, uy/c, uz/c)`, each momentum component further divided
by `m_mass` when `m_units == InputUnits::SI`, and selects iff the result is
nonzero. -/
def ParserFilter.call (f : ParserFilter) (p : SuperParticle)
    (engine : RandomEngine) : Bool × RandomEngine :=
  if !f.m_is_active then (true, engine)
  else
    let x := p.pos 0
    let y := p.pos 1
    let z := p.pos 2
    let ux0 := p.ux / PhysConst_c
    let uy0 := p.uy / PhysConst_c
    let uz0 := p.uz / PhysConst_c
    let ux := if f.m_units = InputUnits.SI then ux0 / f.m_mass else ux0
    let uy := if f.m_units = InputUnits.SI then uy0 / f.m_mass else uy0
    let uz := if f.m_units = InputUnits.SI then uz0 / f.m_mass else uz0
    (decide (f.m_function_partparser f.m_t x y z ux uy uz ≠ 0), engine)

/-- `amrex::RealBox`: an axis-aligned box given by lower and upper corners. -/
structure RealBox where
  lo : Fin 3 → ℚ
  hi : Fin 3 → ℚ

/-- `GeometryFilter` configuration. -/
structure GeometryFilter where
  m_is_active : Bool
  m_domain : RealBox

/-- `GeometryFilter::operator()`: when active,
`return !((p.pos(0) < lo(0)) || (p.pos(0) > hi(0)) || ... );` over the
three axes (3D `AMREX_D_TERM`); inactive returns 1 (true). -/
def GeometryFilter.call (f : GeometryFilter) (p : SuperParticle)
    (engine : RandomEngine) : Bool × RandomEngine :=
  if !f.m_is_active then (true, engine)
  else
    (!(decide (p.pos 0 < f.m_domain.lo 0) || decide (p.pos 0 > f.m_domain.hi 0)
       || decide (p.pos 1 < f.m_domain.lo 1) || decide (p.pos 1 > f.m_domain.hi 1)
       || decide (p.pos 2 < f.m_domain.lo 2) || decide (p.pos 2 > f.m_domain.hi 2)),
     engine)

/-- C4: every filter functor constructed with `is_active = false` returns
true for every particle and random-stream state, and in particular an
inactive `RandomFilter` leaves the engine untouched — its draw counter is
unchanged. -/
theorem inactive_filters_select_all (fr : ℚ) (s : ℤ)
    (fn : ℚ → ℚ → ℚ → ℚ → ℚ → ℚ → ℚ → ℚ) (mass t : ℚ) (u : InputUnits)
    (box : RealBox) (p : SuperParticle) (e : RandomEngine) :
    RandomFilter.call ⟨false, fr⟩ p e = (true, e) ∧
    (RandomFilter.call ⟨false, fr⟩ p e).2.counter = e.counter ∧
    UniformFilter.call ⟨false, s⟩ p e = (true, e) ∧
    ParserFilter.call ⟨false, fn, t, mass, u⟩ p e = (true, e) ∧
    GeometryFilter.call ⟨false, box⟩ p e = (true, e) :=
  ⟨rfl, rfl, rfl, rfl, rfl⟩

/-- C6: an active `UniformFilter` with positive stride selects a particle
iff its id is divisible by the stride; with stride 3 the ids 0..6 give the
pattern T,F,F,T,F,F,T. -/
theorem uniform_filter_stride_selection (s : ℤ) (p : SuperParticle)
    (e : RandomEngine) (hs : 0 < s) :
    ((UniformFilter.call (mkUniformFilter true s) p e).1 = true ↔
      p.id.tmod s = 0) ∧
    (List.map
        (fun n : ℤ =>
          (UniformFilter.call (mkUniformFilter true 3) ⟨n, ![0, 0, 0], 0, 0, 0⟩ e).1)
        [0, 1, 2, 3, 4, 5, 6] =
      [true, false, false, true, false, false, true]) := by
  constructor
  · simp [UniformFilter.call, mkUniformFilter]
  · simp only [UniformFilter.call, mkUniformFilter, List.map, Bool.not_true,
      Bool.false_or]
    decide

/-- Witness for C6 at stride 3 and a concrete particle. -/
theorem uniform_filter_stride_selection_witness :
    (0 : ℤ) < 3 ∧
    (((UniformFilter.call (mkUniformFilter true 3)
          ⟨6, ![0, 0, 0], 0, 0, 0⟩ ⟨fun _ => 0, 0⟩).1 = true ↔
        (6 : ℤ).tmod 3 = 0) ∧
      (List.map
          (fun n : ℤ =>
            (UniformFilter.call (mkUniformFilter true 3) ⟨n, ![0, 0, 0], 0, 0, 0⟩
              ⟨fun _ => 0, 0⟩).1)
          [0, 1, 2, 3, 4, 5, 6] =
        [true, false, false, true, false, false, true])) :=
  ⟨by decide,
    uniform_filter_stride_selection 3 ⟨6, ![0, 0, 0], 0, 0, 0⟩ ⟨fun _ => 0, 0⟩
      (by decide)⟩

/-- C8: an active `GeometryFilter` selects a particle iff its position lies
within the box on every axis, inclusive of the boundaries. -/
theorem geometry_filter_inclusive_box (box : RealBox) (p : SuperParticle)
    (e : RandomEngine) :
    (GeometryFilter.call ⟨true, box⟩ p e).1 = true ↔
      ∀ l : Fin 3, box.lo l ≤ p.pos l ∧ p.pos l ≤ box.hi l := by
  have hcall : (GeometryFilter.call ⟨true, box⟩ p e).1 =
      !(decide (p.pos 0 < box.lo 0) || decide (p.pos 0 > box.hi 0)
        || decide (p.pos 1 < box.lo 1) || decide (p.pos 1 > box.hi 1)
        || decide (p.pos 2 < box.lo 2) || decide (p.pos 2 > box.hi 2)) := rfl
  rw [hcall]
  simp only [Bool.not_eq_true', Bool.or_eq_false_iff, decide_eq_false_iff_not,
    not_lt, gt_iff_lt]
  constructor
  · rintro ⟨⟨⟨⟨⟨h0l, h0h⟩, h1l⟩, h1h⟩, h2l⟩, h2h⟩ l
    fin_cases l <;> exact ⟨by assumption, by assumption⟩
  · intro h
    exact ⟨⟨⟨⟨⟨(h 0).1, (h 0).2⟩, (h 1).1⟩, (h 1).2⟩, (h 2).1⟩, (h 2).2⟩

/-- C5 counterexample: the `UniformFilter` constructor performs no stride
validation — constructing with stride 0 (or -2) succeeds and stores the
value unchanged, with no failure and no message, and a subsequent active
call with the (defined in C++, truncated `%`) negative stride -2 silently
selects particle id 4 instead of any fail-fast behavior.  (The stride-0
call itself is modulo-by-zero, undefined behavior in C++, and is not
modelled here.) -/
theorem uniform_filter_no_fail_fast :
    (mkUniformFilter true 0).m_stride = 0 ∧
    (mkUniformFilter true (-2)).m_stride = -2 ∧
    (UniformFilter.call (mkUniformFilter true (-2)) ⟨4, ![0, 0, 0], 0, 0, 0⟩
        ⟨fun _ => 0, 0⟩).1 = true :=
  ⟨rfl, rfl, rfl⟩

/-- C5 (amended): constructing a `UniformFilter` with a non-positive stride
does not fail: the constructor performs no validation and stores the
configuration unchanged; for a negative stride a subsequent active call
silently returns a boolean (stride positivity is the caller's
configuration responsibility; a stride-0 call is a modulo-by-zero,
undefined behavior in C++, so no result is asserted for it). -/
theorem uniform_filter_unchecked_stride (a : Bool) (s : ℤ) (p : SuperParticle)
    (e : RandomEngine) (hs : s ≤ 0) :
    mkUniformFilter a s = { m_is_active := a, m_stride := s } ∧
    (s < 0 → ∃ b : Bool, UniformFilter.call (mkUniformFilter a s) p e = (b, e)) :=
  ⟨rfl, fun _ => ⟨_, rfl⟩⟩

/-- Witness for the amended C5 at stride -2. -/
theorem uniform_filter_unchecked_stride_witness :
    (-2 : ℤ) ≤ 0 ∧
    (mkUniformFilter true (-2) = { m_is_active := true, m_stride := -2 } ∧
      ((-2 : ℤ) < 0 → ∃ b : Bool, UniformFilter.call (mkUniformFilter true (-2))
        ⟨4, ![0, 0, 0], 0, 0, 0⟩ ⟨fun _ => 0, 0⟩ = (b, ⟨fun _ => 0, 0⟩))) :=
  ⟨by decide,
    uniform_filter_unchecked_stride true (-2) ⟨4, ![0, 0, 0], 0, 0, 0⟩
      ⟨fun _ => 0, 0⟩ (by decide)⟩

/-- C7: an active `ParserFilter` evaluates the expression at
`(m_t, x, y, z, ux/c, uy/c, uz/c)`, each momentum component additionally
divided by the species mass exactly when the unit mode is SI, and selects
iff the result is nonzero; with mass 2 ≠ 1 and `ux = c`, the expression
`ux - 1` selects under SI units but not under WarpX units — the two modes
evaluate differently on identical particle state. -/
theorem parser_filter_momentum_units (f : ParserFilter) (p : SuperParticle)
    (e : RandomEngine) (ha : f.m_is_active = true) :
    ((ParserFilter.call f p e).1 = true ↔
      f.m_function_partparser f.m_t (p.pos 0) (p.pos 1) (p.pos 2)
        (p.ux / PhysConst_c / (if f.m_units = InputUnits.SI then f.m_mass else 1))
        (p.uy / PhysConst_c / (if f.m_units = InputUnits.SI then f.m_mass else 1))
        (p.uz / PhysConst_c / (if f.m_units = InputUnits.SI then f.m_mass else 1))
        ≠ 0) ∧
    (ParserFilter.call ⟨true, fun _ _ _ _ ux _ _ => ux - 1, 0, 2, InputUnits.SI⟩
        ⟨0, ![0, 0, 0], PhysConst_c, 0, 0⟩ e).1 = true ∧
    (ParserFilter.call ⟨true, fun _ _ _ _ ux _ _ => ux - 1, 0, 2, InputUnits.WarpX⟩
        ⟨0, ![0, 0, 0], PhysConst_c, 0, 0⟩ e).1 = false := by
  refine ⟨?_, ?_, ?_⟩
  · rcases f with ⟨act, fn, t, m, u⟩
    simp only at ha
    subst ha
    cases u <;> simp [ParserFilter.call, div_one]
  · norm_num [ParserFilter.call, PhysConst_c]
  · norm_num [ParserFilter.call, PhysConst_c, if_neg
      (show ¬InputUnits.WarpX = InputUnits.SI from by decide)]

/-- Witness for C7 at a concrete active filter. -/
theorem parser_filter_momentum_units_witness :
    (ParserFilter.m_is_active ⟨true, fun _ _ _ _ _ _ _ => 1, 0, 1, InputUnits.WarpX⟩
        = true) ∧
    (((ParserFilter.call ⟨true, fun _ _ _ _ _ _ _ => 1, 0, 1, InputUnits.WarpX⟩
          ⟨0, ![0, 0, 0], 0, 0, 0⟩ ⟨fun _ => 0, 0⟩).1 = true ↔
        (fun _ _ _ _ _ _ _ => (1 : ℚ)) (0 : ℚ)
          ((![0, 0, 0] : Fin 3 → ℚ) 0) ((![0, 0, 0] : Fin 3 → ℚ) 1)
          ((![0, 0, 0] : Fin 3 → ℚ) 2)
          ((0 : ℚ) / PhysConst_c /
            (if InputUnits.WarpX = InputUnits.SI then (1 : ℚ) else 1))
          ((0 : ℚ) / PhysConst_c /
            (if InputUnits.WarpX = InputUnits.SI then (1 : ℚ) else 1))
          ((0 : ℚ) / PhysConst_c /
            (if InputUnits.WarpX = InputUnits.SI then (1 : ℚ) else 1)) ≠ 0) ∧
      (ParserFilter.call ⟨true, fun _ _ _ _ ux _ _ => ux - 1, 0, 2, InputUnits.SI⟩
          ⟨0, ![0, 0, 0], PhysConst_c, 0, 0⟩ ⟨fun _ => 0, 0⟩).1 = true ∧
      (ParserFilter.call ⟨true, fun _ _ _ _ ux _ _ => ux - 1, 0, 2, InputUnits.WarpX⟩
          ⟨0, ![0, 0, 0], PhysConst_c, 0, 0⟩ ⟨fun _ => 0, 0⟩).1 = false) :=
  ⟨rfl,
    parser_filter_momentum_units
      ⟨true, fun _ _ _ _ _ _ _ => 1, 0, 1, InputUnits.WarpX⟩
      ⟨0, ![0, 0, 0], 0, 0, 0⟩ ⟨fun _ => 0, 0⟩ rfl⟩

/-- C9: every freshly constructed `ParserFilter` has unit mode
`InputUnits.WarpX` regardless of the constructor arguments (the unit mode is
not a parameter), so the fresh filter's behavior is independent of the
species mass — the SI division branch is unreachable without mutating
`m_units` after construction. -/
theorem parser_filter_default_units (a : Bool)
    (fn : ℚ → ℚ → ℚ → ℚ → ℚ → ℚ → ℚ → ℚ) (mass mass2 t : ℚ)
    (p : SuperParticle) (e : RandomEngine) :
    (mkParserFilter a fn mass t).m_units = InputUnits.WarpX ∧
    ParserFilter.call (mkParserFilter true fn mass t) p e =
      ParserFilter.call (mkParserFilter true fn mass2 t) p e :=
  ⟨rfl, by simp [ParserFilter.call, mkParserFilter]⟩

/-- C10: `UniformFilter`, `ParserFilter` and `GeometryFilter` give the same
result for any two random-engine states and leave the engine unchanged;
only `RandomFilter` reads the engine — an active one with fraction 1/2
selects under a stream of 0s, rejects under a stream of 1s, and advances
the draw counter by one. -/
theorem only_random_filter_reads_engine (fU : UniformFilter) (fP : ParserFilter)
    (fG : GeometryFilter) (p : SuperParticle) (e e2 : RandomEngine) :
    ((UniformFilter.call fU p e).1 = (UniformFilter.call fU p e2).1 ∧
      (UniformFilter.call fU p e).2 = e) ∧
    ((ParserFilter.call fP p e).1 = (ParserFilter.call fP p e2).1 ∧
      (ParserFilter.call fP p e).2 = e) ∧
    ((GeometryFilter.call fG p e).1 = (GeometryFilter.call fG p e2).1 ∧
      (GeometryFilter.call fG p e).2 = e) ∧
    (RandomFilter.call ⟨true, 1 / 2⟩ p ⟨fun _ => 0, 0⟩).1 = true ∧
    (RandomFilter.call ⟨true, 1 / 2⟩ p ⟨fun _ => 1, 0⟩).1 = false ∧
    (RandomFilter.call ⟨true, 1 / 2⟩ p ⟨fun _ => 0, 0⟩).2.counter =
      (⟨fun _ => 0, 0⟩ : RandomEngine).counter + 1 := by
  refine ⟨⟨rfl, rfl⟩, ⟨?_, ?_⟩, ⟨?_, ?_⟩, ?_, ?_, rfl⟩
  · cases hb : fP.m_is_active <;> simp [ParserFilter.call, hb]
  · cases hb : fP.m_is_active <;> simp [ParserFilter.call, hb]
  · cases hb : fG.m_is_active <;> simp [GeometryFilter.call, hb]
  · cases hb : fG.m_is_active <;> simp [GeometryFilter.call, hb]
  · norm_num [RandomFilter.call, amrexRandom]
  · norm_num [RandomFilter.call, amrexRandom]

end WarpXProof
